import Mathlib

/-!
Verification of the `products` block component
(`src/blocks/products/products.js`).

The repository holds two near-duplicate versions of the same component in
one source file.  The shared pieces (item parser, record fetcher) are
embedded once; the card renderer and the orchestrator, which differ
between the two versions, are embedded twice, in namespaces `V1` (first
version, `products-card` markup) and `V2` (second version, `product-card`
markup with title section and CTA).

JavaScript string primitives (`trim`, global `replace`, `split`,
`includes`, the `||` default operator) are embedded as executable
functions on `String`/`List Char` so that every definition evaluates on
concrete inputs.
-/

/-! ## Embedding of the JavaScript string primitives -/

/-- Boolean test that the first character list is a prefix of the second. -/
def isPrefixB : List Char → List Char → Bool
  | [], _ => true
  | _ :: _, [] => false
  | a :: as, b :: bs => a == b && isPrefixB as bs

/-- Boolean test that `sub` occurs contiguously inside the second list. -/
def isInfixB (sub : List Char) : List Char → Bool
  | [] => isPrefixB sub []
  | c :: rest => isPrefixB sub (c :: rest) || isInfixB sub rest

/-- Embeds JavaScript `s.includes(sub)`. -/
def includesB (s sub : String) : Bool := isInfixB sub.data s.data

/-- `sub` occurs as a contiguous substring of `s`. -/
def strContains (s sub : String) : Prop := includesB s sub = true

instance (s sub : String) : Decidable (strContains s sub) :=
  inferInstanceAs (Decidable (includesB s sub = true))

/-- Whitespace trimming on character lists. -/
def trimChars (l : List Char) : List Char :=
  ((l.dropWhile Char.isWhitespace).reverse.dropWhile Char.isWhitespace).reverse

/-- Embeds JavaScript `s.trim()`. -/
def jsTrim (s : String) : String := ⟨trimChars s.data⟩

/-- One pass of global, left-to-right, non-overlapping pattern replacement.
The fuel argument (instantiated with the length of the scanned list) only
makes the recursion structural; it never runs out on the actual calls. -/
def replaceFuel (pat repl : List Char) : Nat → List Char → List Char
  | _, [] => []
  | 0, l => l
  | fuel + 1, c :: rest =>
    if isPrefixB pat (c :: rest) then
      repl ++ replaceFuel pat repl fuel (List.drop (pat.length - 1) rest)
    else
      c :: replaceFuel pat repl fuel rest

/-- Embeds JavaScript `s.replace(/pat/g, repl)` for a plain-text pattern. -/
def jsReplace (s pat repl : String) : String :=
  ⟨replaceFuel pat.data repl.data s.data.length s.data⟩

/-- Worker for `jsSplitNl`: accumulates the current piece in reverse. -/
def splitNlGo (acc : List Char) : List Char → List String
  | [] => [⟨acc.reverse⟩]
  | c :: rest =>
    if c == '\n' then ⟨acc.reverse⟩ :: splitNlGo [] rest
    else splitNlGo (c :: acc) rest

/-- Embeds JavaScript `s.split('\n')`. -/
def jsSplitNl (s : String) : List String := splitNlGo [] s.data

/-- Embeds the JavaScript `a || b` default operator on strings: the empty
string is falsy, every other string is truthy. -/
def jsOr (a b : String) : String := if a = "" then b else a

/-! ## Lemmas about the string primitives -/

theorem isPrefixB_self_append (s t : List Char) : isPrefixB s (s ++ t) = true := by
  induction s with
  | nil => simp [isPrefixB]
  | cons a as ih => simp [isPrefixB, ih]

theorem isInfixB_append (p s q : List Char) : isInfixB s (p ++ s ++ q) = true := by
  induction p with
  | nil =>
    cases s with
    | nil => cases q <;> simp [isInfixB, isPrefixB]
    | cons a as =>
      have h : isPrefixB (a :: as) ((a :: as) ++ q) = true := isPrefixB_self_append (a :: as) q
      simp only [List.cons_append] at h ⊢
      simp [isInfixB, h]
  | cons c p ih =>
    simp only [List.cons_append, isInfixB, List.append_eq]
    rw [ih]
    simp

theorem data_append (s t : String) : (s ++ t).data = s.data ++ t.data := rfl

theorem strExt {s t : String} (h : s.data = t.data) : s = t := by
  cases s; cases t; cases h; rfl

theorem strAppend_assoc (a b c : String) : (a ++ b) ++ c = a ++ (b ++ c) :=
  strExt (List.append_assoc a.data b.data c.data)

theorem strContains_of_eq (s p sub q : String) (h : s = p ++ sub ++ q) :
    strContains s sub := by
  subst h
  unfold strContains includesB
  rw [data_append, data_append]
  exact isInfixB_append p.data sub.data q.data

theorem jsOr_empty (s : String) : jsOr s "" = s := by
  unfold jsOr
  split
  · exact (by assumption : s = "").symm
  · rfl

theorem concat3_ne_empty (a b c : String) (ha : a ≠ "") : a ++ b ++ c ≠ "" := by
  intro h
  apply ha
  have hdata : (a ++ b ++ c).data = [] := by rw [h]
  rw [data_append, data_append] at hdata
  have hnil : a.data = [] := (List.append_eq_nil.mp ((List.append_eq_nil.mp hdata).1)).1
  exact strExt hnil

/-! ## Data model -/

/-- One parsed row of the block: display name and content-fragment path. -/
structure ProductItem where
  productName : String
  fragmentPath : String
deriving DecidableEq, Repr

/-- A rich-text field of the record, consumed through its `plaintext`. -/
structure RichText where
  plaintext : String
deriving DecidableEq, Repr

/-- An image reference; `authorUrl` embeds the JSON key `_authorUrl`. -/
structure ImageRef where
  authorUrl : String
deriving DecidableEq, Repr

/-- The product record consumed from the GraphQL response.  Every field is
optional; `none` is a missing JSON key (JavaScript `undefined`). -/
structure ProductRecord where
  creditCardName : Option String
  creditCardDescription : Option RichText
  promo : Option RichText
  notes : Option RichText
  creditCardImage : Option ImageRef
deriving DecidableEq, Repr

/-- The `productCreditCardModelByPath` object of the response body. -/
structure QueryResult where
  item : Option ProductRecord
deriving DecidableEq, Repr

/-- The `data` object of the response body. -/
structure GraphQLData where
  productCreditCardModelByPath : Option QueryResult
deriving DecidableEq, Repr

/-- A parsed JSON response body, shaped
`{ data: { productCreditCardModelByPath: { item: {...} } } }`. -/
structure GraphQLResponse where
  data : Option GraphQLData
deriving DecidableEq, Repr

/-- The error value thrown by the fetcher, carrying one message. -/
structure FetchError where
  message : String
deriving DecidableEq, Repr

/-- An HTTP request as issued by the fetcher: the URL and whether the
`credentials: 'include'` option was set. -/
structure Request where
  url : String
  credentialsInclude : Bool
deriving DecidableEq, Repr

/-- What the network does with one request: fail (a rejected `fetch`), or
deliver a response with a status, a status text and a body; the body is
`Except.error` when `response.json()` fails to parse. -/
inductive FetchOutcome where
  | networkError (message : String)
  | response (status : Nat) (statusText : String) (body : Except String GraphQLResponse)

/-- The network environment the component runs against. -/
def Network : Type := Request → FetchOutcome

/-- A rendered card: the `li` element's class and its `innerHTML`. -/
structure Card where
  className : String
  innerHTML : String
deriving DecidableEq, Repr

/-- The per-item outcome of the orchestrator's `map` body: the rendered
card and how many `moveInstrumentation` calls were made for it. -/
structure ItemResult where
  card : Card
  instrCalls : Nat
deriving DecidableEq, Repr

/-! ## Record fetcher (`getProductDataByContentPath`, identical in both
versions of the component) -/

/-- `const AEM_AUTHOR_URL = ...` -/
def AEM_AUTHOR_URL : String := "https://author-p9606-e71941.adobeaemcloud.com"

/-- `const GRAPHQL_ENDPOINT = ...` -/
def GRAPHQL_ENDPOINT : String :=
  "/graphql/execute.json/jan-cf-models/getProductCreditCardByPath;path="

/-- The request the fetcher issues: the source builds
`${AEM_AUTHOR_URL}${GRAPHQL_ENDPOINT}${contentPath}` and passes
`{ credentials: 'include' }`. -/
def buildRequest (contentPath : String) : Request :=
  { url := AEM_AUTHOR_URL ++ GRAPHQL_ENDPOINT ++ contentPath
    credentialsInclude := true }

/-- `response.ok`: status in the 2xx range. -/
def responseOk (status : Nat) : Bool := 200 ≤ status && status < 300

/-- The optional chain `cf?.data?.productCreditCardModelByPath?.item`. -/
def nestedItem (cf : GraphQLResponse) : Option ProductRecord :=
  (cf.data.bind GraphQLData.productCreditCardModelByPath).bind QueryResult.item

/-- The wrapper the catch clause puts before the underlying message. -/
def fetchFailLead : String := "Failed to fetch GraphQL Data: "

/-- The message of the error thrown on a non-2xx status. -/
def httpErrMsg (status : Nat) (statusText : String) : String :=
  "HTTP error! status: " ++ toString status ++ " - " ++ statusText

/-- Embeds `getProductDataByContentPath`: issue one GET for the fixed
URL; throw on network failure, non-2xx status or unparsable JSON (the
catch clause rethrows with `fetchFailLead` prepended); return `none`
("no record") when the nested `item` is missing (the `|| ''` followed by
the `!cfData` check); return the record otherwise. -/
def getProductDataByContentPath (net : Network) (contentPath : String) :
    Except FetchError (Option ProductRecord) :=
  match net (buildRequest contentPath) with
  | FetchOutcome.networkError msg => Except.error ⟨fetchFailLead ++ msg⟩
  | FetchOutcome.response status statusText body =>
    if responseOk status then
      match body with
      | Except.error jsonMsg => Except.error ⟨fetchFailLead ++ jsonMsg⟩
      | Except.ok cf =>
        match nestedItem cf with
        | none => Except.ok none
        | some rec => Except.ok (some rec)
    else
      Except.error ⟨fetchFailLead ++ httpErrMsg status statusText⟩

/-- Whether the fetch threw (the map body's catch clause ran). -/
def exceptFailed : Except FetchError (Option ProductRecord) → Bool
  | Except.ok _ => false
  | Except.error _ => true

/-! ## Item parser (`parseProductItems`, identical in both versions) -/

/-- The body of the `rows.forEach` callback: a row with at least two
cells whose trimmed second cell is non-empty yields one item; every
other row yields nothing.  A cell is its `textContent` string. -/
def parseRow (cells : List String) : Option ProductItem :=
  if 2 ≤ cells.length then
    let productName := jsOr (jsTrim (cells.getD 0 "")) ""
    let fragmentPath := jsOr (jsTrim (cells.getD 1 "")) ""
    if fragmentPath ≠ "" then some ⟨productName, fragmentPath⟩ else none
  else none

/-- Embeds `parseProductItems`: the rows are the block's children, each
row's cells are its children; qualifying rows are collected in source
order. -/
def parseProductItems (rows : List (List String)) : List ProductItem :=
  rows.filterMap parseRow

/-- Follows the spec's words for comparison with the parser: a row
qualifies iff it has at least 2 cells and the trimmed text of its second
cell is non-empty. -/
def qualifiesRow (cells : List String) : Bool :=
  decide (2 ≤ cells.length) && decide (jsTrim (cells.getD 1 "") ≠ "")

/-- Follows the spec's words: the item a qualifying row denotes, built
from the trimmed first and second cells. -/
def specItemOfRow (cells : List String) : ProductItem :=
  ⟨jsTrim (cells.getD 0 ""), jsTrim (cells.getD 1 "")⟩

theorem parseRow_eq (cells : List String) :
    parseRow cells = if qualifiesRow cells then some (specItemOfRow cells) else none := by
  unfold parseRow qualifiesRow specItemOfRow
  rw [jsOr_empty, jsOr_empty]
  by_cases h2 : 2 ≤ cells.length
  · by_cases hp : jsTrim (cells.getD 1 "") = ""
    · simp [h2, hp]
    · simp [h2, hp]
  · simp [h2]

theorem filterMap_eq_map_filter {α β : Type} (f : α → Option β) (p : α → Bool)
    (g : α → β) (hf : ∀ a, f a = if p a then some (g a) else none) (l : List α) :
    l.filterMap f = (l.filter p).map g := by
  induction l with
  | nil => rfl
  | cons a l ih =>
    rw [List.filterMap_cons, List.filter_cons, hf a]
    by_cases h : p a = true
    · simp [h, ih]
    · simp [h, ih]

/-! ## Shared renderer helpers -/

/-- `fragmentData.creditCardName` read as by `||`: a missing key behaves
like the empty string. -/
def recNameOf (r : ProductRecord) : String := r.creditCardName.getD ""

/-- The optional chain `field?.plaintext || ''`. -/
def plainOf (o : Option RichText) : String := (o.map RichText.plaintext).getD ""

/-- The optional chain `fragmentData.creditCardImage?._authorUrl`,
read as by a truthiness test: a missing key behaves like the empty
string. -/
def authorUrlOf (r : ProductRecord) : String :=
  (r.creditCardImage.map ImageRef.authorUrl).getD ""

/-- The title expression of both versions:
`fragmentData.creditCardName || productName || 'Product'`. -/
def cardTitle (productName : String) (r : ProductRecord) : String :=
  jsOr (jsOr (recNameOf r) productName) "Product"

/-- The fallback notice text of both versions. -/
def fallbackNotice : String := "Content fragment data not available"

/-! ## Card renderer and orchestrator, first version (`products-card`) -/

namespace V1

/-- The first version's `formatText`: paragraph breaks for double
newlines, `<br>` for single newlines, the `/>/g → '>'` replacement
(the pattern is the literal `>` character), then trim. -/
def formatText (text : String) : String :=
  if text = "" then ""
  else jsTrim (jsReplace (jsReplace (jsReplace text "\n\n" "</p><p>") "\n" "<br>") ">" ">")

/-- The interpolated title element of the card body. -/
def titleHtml (productName : String) (r : ProductRecord) : String :=
  "<h3 class=\"products-card-title\">" ++ cardTitle productName r ++ "</h3>"

/-- `${description ? ... : ''}` of the card template. -/
def descriptionBlock (description : String) : String :=
  if description = "" then ""
  else "<div class=\"products-card-description\"><p>" ++ formatText description ++ "</p></div>"

/-- `${promo ? ... : ''}` of the card template. -/
def promoBlock (promo : String) : String :=
  if promo = "" then ""
  else "<div class=\"products-card-promo\"><p>" ++ formatText promo ++ "</p></div>"

/-- `${notes ? ... : ''}` of the card template. -/
def notesBlock (notes : String) : String :=
  if notes = "" then ""
  else "<div class=\"products-card-notes\"><p>" ++ formatText notes ++ "</p></div>"

/-- Serialization of the `picture` element built for the image (src,
alt, lazy loading, inline width/height style).  The exact attribute
order is a DOM serialization detail no claim depends on. -/
def pictureHtml (src alt : String) : String :=
  "<picture><img src=\"" ++ src ++ "\" alt=\"" ++ alt ++
    "\" loading=\"lazy\" style=\"width: 100%; height: auto;\"></picture>"

/-- The `imageHtml` value: empty unless `creditCardImage?._authorUrl`
is truthy. -/
def imageBlock (r : ProductRecord) : String :=
  if authorUrlOf r = "" then ""
  else
    "<div class=\"products-card-image\">" ++
      pictureHtml (authorUrlOf r) (jsOr (recNameOf r) "Credit Card") ++ "</div>"

/-- The interpolated title element of the fallback card. -/
def fallbackTitleHtml (productName : String) : String :=
  "<h3 class=\"products-card-title\">" ++ jsOr productName "Product" ++ "</h3>"

/-- The fallback card's `innerHTML` template (record absent). -/
def fallbackInnerHtml (productName : String) : String :=
  "\n      <div class=\"products-card-body\">\n        " ++
    fallbackTitleHtml productName ++
    "\n        <p class=\"products-card-error\">" ++ fallbackNotice ++
    "</p>\n      </div>\n    "

/-- The `cardContent` template of the normal card. -/
def cardInnerHtml (productName : String) (r : ProductRecord) : String :=
  "\n    " ++ imageBlock r ++
    "\n    <div class=\"products-card-body\">\n      " ++
    titleHtml productName r ++ "\n      " ++
    descriptionBlock (plainOf r.creditCardDescription) ++ "\n      " ++
    promoBlock (plainOf r.promo) ++ "\n      " ++
    notesBlock (plainOf r.notes) ++
    "\n    </div>\n  "

/-- Embeds the first version's `createProductCard`: always returns one
`li.products-card`; fallback markup when the record is absent. -/
def createProductCard (productName : String) (fragmentData : Option ProductRecord) : Card :=
  match fragmentData with
  | none => { className := "products-card", innerHTML := fallbackInnerHtml productName }
  | some r => { className := "products-card", innerHTML := cardInnerHtml productName r }

/-- The body of the orchestrator's `productItems.map` callback: fetch the
record and render; a throw is caught at the item level and downgraded to
a fallback card, skipping the `moveInstrumentation` call that only the
try branch makes. -/
def processItem (net : Network) (item : ProductItem) : ItemResult :=
  match getProductDataByContentPath net item.fragmentPath with
  | Except.ok fragmentData =>
    { card := createProductCard item.productName fragmentData, instrCalls := 1 }
  | Except.error _ =>
    { card := createProductCard item.productName none, instrCalls := 0 }

/-- The final content of the block element after `decorate` settles. -/
inductive BlockResult where
  | noProducts
  | rendered (cards : List Card)
  | errorParagraph
deriving DecidableEq, Repr

/-- Embeds the first version's `decorate`: parse the rows; with no items
show the placeholder; otherwise fetch-and-render every item (the
`Promise.all` result list is indexed by item position, independent of
the order in which the fetches settle) and replace the block content
with the list of all cards.  The top-level catch that produces
`errorParagraph` guards only exception-free steps once each item's
failure is downgraded inside the map body, so no reachable branch
produces it. -/
def decorate (net : Network) (rows : List (List String)) : BlockResult :=
  let productItems := parseProductItems rows
  if productItems.length = 0 then
    BlockResult.noProducts
  else
    BlockResult.rendered ((productItems.map (processItem net)).map ItemResult.card)

end V1

/-! ## Card renderer and orchestrator, second version (`product-card`) -/

namespace V2

/-- The second version's `formatText`: only the `/>/g → '>'`
replacement (the pattern is the literal `>` character) and a trim — no
line-break conversion. -/
def formatText (text : String) : String :=
  if text = "" then "" else jsTrim (jsReplace text ">" ">")

/-- One line of the promo content: heading markup when the line contains
a special-offer marker, paragraph markup otherwise. -/
def promoLineHtml (line : String) : String :=
  if includesB line "special offer:" || includesB line "Rewards special offer:" then
    "<h4>" ++ line ++ "</h4>"
  else
    "<p>" ++ line ++ "</p>"

/-- The second version's `formatPromoContent`: format, split into lines,
drop blank lines, wrap each line. -/
def formatPromoContent (promoText : String) : String :=
  if promoText = "" then ""
  else
    ((jsSplitNl (formatText promoText)).filter (fun line => jsTrim line != "")).foldl
      (fun content line => content ++ promoLineHtml line) ""

/-- The second version's `formatNotesContent`: a fixed heading, then the
non-blank lines as paragraphs, skipping a first line that repeats the
heading. -/
def formatNotesContent (notesText : String) : String :=
  if notesText = "" then ""
  else
    (((jsSplitNl (formatText notesText)).filter (fun line => jsTrim line != "")).enum).foldl
      (fun content p =>
        if p.1 == 0 && includesB p.2 "Important numbers" then content
        else if jsTrim p.2 != "" then content ++ "<p>" ++ p.2 ++ "</p>"
        else content)
      "<h4>Important numbers for new cards:</h4>"

/-- The interpolated title element of the card body. -/
def titleHtml (productName : String) (r : ProductRecord) : String :=
  "<h3 class=\"product-title\">" ++ cardTitle productName r ++ "</h3>"

/-- `${description ? ... : ''}` of the card template. -/
def descriptionBlock (description : String) : String :=
  if description = "" then ""
  else "<div class=\"product-description\">" ++ formatText description ++ "</div>"

/-- `${promo ? ... : ''}` of the card template. -/
def promoBlock (promo : String) : String :=
  if promo = "" then ""
  else "<div class=\"product-promo\">" ++ formatPromoContent promo ++ "</div>"

/-- `${notes ? ... : ''}` of the card template. -/
def notesBlock (notes : String) : String :=
  if notes = "" then ""
  else "<div class=\"product-notes\">" ++ formatNotesContent notes ++ "</div>"

/-- Serialization of the `picture` element (no inline style in this
version). -/
def pictureHtml (src alt : String) : String :=
  "<picture><img src=\"" ++ src ++ "\" alt=\"" ++ alt ++ "\" loading=\"lazy\"></picture>"

/-- The `imageHtml` value. -/
def imageBlock (r : ProductRecord) : String :=
  if authorUrlOf r = "" then ""
  else
    "<div class=\"product-card-image\">" ++
      pictureHtml (authorUrlOf r) (jsOr (recNameOf r) "Credit Card") ++ "</div>"

/-- The interpolated title element of the fallback card. -/
def fallbackTitleHtml (productName : String) : String :=
  "<h3>" ++ jsOr productName "Product" ++ "</h3>"

/-- The fallback card's `innerHTML` template (record absent). -/
def fallbackInnerHtml (productName : String) : String :=
  "\n      <div class=\"product-card-body\">\n        " ++
    fallbackTitleHtml productName ++
    "\n        <p>" ++ fallbackNotice ++ "</p>\n      </div>\n    "

/-- The constant CTA section of the card template. -/
def ctaHtml : String :=
  "<div class=\"product-cta\">\n        <a href=\"#\" class=\"product-cta-button\">Find out more</a>\n      </div>"

/-- The `cardContent` template of the normal card. -/
def cardInnerHtml (productName : String) (r : ProductRecord) : String :=
  "\n    " ++ imageBlock r ++
    "\n    <div class=\"product-card-body\">\n      " ++
    titleHtml productName r ++ "\n      " ++
    descriptionBlock (plainOf r.creditCardDescription) ++ "\n      " ++
    promoBlock (plainOf r.promo) ++ "\n      " ++
    notesBlock (plainOf r.notes) ++ "\n      " ++
    ctaHtml ++
    "\n    </div>\n  "

/-- Embeds the second version's `createProductCard`: the fallback card
additionally carries the `product-error` class. -/
def createProductCard (productName : String) (fragmentData : Option ProductRecord) : Card :=
  match fragmentData with
  | none =>
    { className := "product-card product-error", innerHTML := fallbackInnerHtml productName }
  | some r => { className := "product-card", innerHTML := cardInnerHtml productName r }

/-- The body of the orchestrator's `productItems.map` callback (same
structure as in the first version). -/
def processItem (net : Network) (item : ProductItem) : ItemResult :=
  match getProductDataByContentPath net item.fragmentPath with
  | Except.ok fragmentData =>
    { card := createProductCard item.productName fragmentData, instrCalls := 1 }
  | Except.error _ =>
    { card := createProductCard item.productName none, instrCalls := 0 }

/-- The title section this version prepends to the list. -/
def titleSectionHtml : String := "<h2>Your card options</h2>"

/-- The final content of the block element after `decorate` settles. -/
inductive BlockResult where
  | noProducts
  | rendered (titleSection : String) (cards : List Card)
  | errorParagraph
deriving DecidableEq, Repr

/-- Embeds the second version's `decorate` (title section plus the list
of all cards; otherwise as in the first version). -/
def decorate (net : Network) (rows : List (List String)) : BlockResult :=
  let productItems := parseProductItems rows
  if productItems.length = 0 then
    BlockResult.noProducts
  else
    BlockResult.rendered titleSectionHtml
      ((productItems.map (processItem net)).map ItemResult.card)

end V2

/-! ## Spec-side URL encoding (for comparison with the fetcher's URL) -/

/-- Upper-case hexadecimal digit. -/
def toHexDigit (n : Nat) : Char :=
  if n < 10 then Char.ofNat (48 + n) else Char.ofNat (55 + n)

/-- Percent-encoding of one character: RFC 3986 unreserved characters
and the path separator pass through, everything else is escaped. -/
def percentEncodeChar (c : Char) : List Char :=
  if c.isAlphanum || c = '-' || c = '_' || c = '.' || c = '~' || c = '/' then [c]
  else ['%', toHexDigit (c.toNat / 16), toHexDigit (c.toNat % 16)]

/-- Follows the spec's words (the HTTP contract's
`urlencoded-fragment-path`), not the source: percent-encoding of the
fragment path.  The source performs no encoding; this definition exists
to compare the two. -/
def urlEncode (s : String) : String := ⟨(s.data.map percentEncodeChar).flatten⟩

/-- The request the spec's HTTP contract describes:
`<fixed-base>/<fixed-query-path><urlencoded-fragment-path>` with
credentials included. -/
def specEncodedRequest (contentPath : String) : Request :=
  { url := AEM_AUTHOR_URL ++ GRAPHQL_ENDPOINT ++ urlEncode contentPath
    credentialsInclude := true }

/-! ## Concrete fixtures used by witnesses and counterexamples -/

/-- A network on which every fetch is rejected. -/
def netErr : Network := fun _ => FetchOutcome.networkError "Network failure"

/-- A network on which every fetch yields HTTP 404. -/
def net404 : Network := fun _ => FetchOutcome.response 404 "Not Found" (Except.ok ⟨none⟩)

/-- A network on which every fetch yields 200 with body `{"data":{}}`. -/
def net200Empty : Network :=
  fun _ => FetchOutcome.response 200 "OK" (Except.ok ⟨some ⟨none⟩⟩)

/-- A network on which every fetch yields 200 with the given record. -/
def netRecord (r : ProductRecord) : Network :=
  fun _ => FetchOutcome.response 200 "OK" (Except.ok ⟨some ⟨some ⟨some r⟩⟩⟩)

/-- The parsed item of the row `["Card A", "/path/a"]`. -/
def itemA : ProductItem := ⟨"Card A", "/path/a"⟩

/-- A one-row block. -/
def rowsA : List (List String) := [["Card A", "/path/a"]]

/-- A block with one qualifying and two non-qualifying rows. -/
def rowsMixed : List (List String) :=
  [["Card A", "/path/a"], ["", ""], ["only-one-cell"]]

/-! ## C2: the item parser returns one item per qualifying row -/

/-- C2: for every block, `parseProductItems` returns exactly the
qualifying rows (at least 2 cells, non-empty trimmed second cell) in
source order, each mapped to the item built from the trimmed first and
second cells; hence the count of parsed items equals the count of
qualifying rows. -/
theorem parseProductItems_qualifying_rows (rows : List (List String)) :
    parseProductItems rows = ((rows.filter qualifiesRow).map specItemOfRow) ∧
    (parseProductItems rows).length = (rows.filter qualifiesRow).length := by
  have h : parseProductItems rows = ((rows.filter qualifiesRow).map specItemOfRow) :=
    filterMap_eq_map_filter parseRow qualifiesRow specItemOfRow parseRow_eq rows
  exact ⟨h, by rw [h, List.length_map]⟩

/-! ## C3: the fetcher fails on network errors and non-2xx statuses -/

/-- C3: for every network and path, if the fetch rejects the fetcher
fails with a `FetchError` whose message carries the underlying message,
and if the response status is non-2xx (for instance 404) it fails with
a `FetchError` carrying the HTTP error message; in both cases no record
is returned. -/
theorem getProductData_fails_on_network_or_http (net : Network) (path : String) :
    (∀ m, net (buildRequest path) = FetchOutcome.networkError m →
      getProductDataByContentPath net path = Except.error ⟨fetchFailLead ++ m⟩) ∧
    (∀ s st body, net (buildRequest path) = FetchOutcome.response s st body →
      responseOk s = false →
      getProductDataByContentPath net path =
        Except.error ⟨fetchFailLead ++ httpErrMsg s st⟩) := by
  constructor
  · intro m hm
    unfold getProductDataByContentPath
    rw [hm]
  · intro s st body hresp hs
    unfold getProductDataByContentPath
    rw [hresp]
    simp [hs]

/-- Witness for C3 at concrete inputs: a rejected fetch and an HTTP 404
both produce the corresponding `FetchError`. -/
theorem getProductData_fails_on_network_or_http_witness :
    getProductDataByContentPath netErr "/path/a" =
      Except.error ⟨fetchFailLead ++ "Network failure"⟩ ∧
    getProductDataByContentPath net404 "/path/a" =
      Except.error ⟨fetchFailLead ++ httpErrMsg 404 "Not Found"⟩ :=
  ⟨(getProductData_fails_on_network_or_http netErr "/path/a").1 "Network failure" rfl,
   (getProductData_fails_on_network_or_http net404 "/path/a").2 404 "Not Found"
     (Except.ok ⟨none⟩) rfl (by decide)⟩

/-! ## C4: a 2xx response lacking the nested item yields "no record" -/

/-- C4: for every network and path, a 2xx response whose parsed body
lacks the nested `item` (for example `{"data":{}}`) makes the fetcher
return `none` ("no record") rather than fail. -/
theorem getProductData_missing_item_returns_none (net : Network) (path : String)
    (s : Nat) (st : String) (cf : GraphQLResponse)
    (hresp : net (buildRequest path) = FetchOutcome.response s st (Except.ok cf))
    (hok : responseOk s = true)
    (hmissing : nestedItem cf = none) :
    getProductDataByContentPath net path = Except.ok none := by
  unfold getProductDataByContentPath
  rw [hresp]
  simp [hok, hmissing]

/-- Witness for C4: a 200 response with body `{"data":{}}` yields
`Except.ok none`. -/
theorem getProductData_missing_item_returns_none_witness :
    getProductDataByContentPath net200Empty "/path/a" = Except.ok none :=
  getProductData_missing_item_returns_none net200Empty "/path/a" 200 "OK"
    ⟨some ⟨none⟩⟩ rfl (by decide) (by decide)

/-! ## C8 (corrected): the fetcher's URL holds the path verbatim -/

/-- C8 counterexample: the claim says the requested URL holds the
URL-encoded fragment path; on the path `"/content/cards/a b"` the
fetcher's request differs from the URL-encoded one (the space is sent
verbatim, not as `%20`). -/
theorem fetch_url_encoding_counterexample :
    buildRequest "/content/cards/a b" ≠ specEncodedRequest "/content/cards/a b" ∧
    specEncodedRequest "/content/cards/a b" =
      { url := AEM_AUTHOR_URL ++ GRAPHQL_ENDPOINT ++ "/content/cards/a%20b"
        credentialsInclude := true } ∧
    buildRequest "/content/cards/a b" =
      { url := AEM_AUTHOR_URL ++ GRAPHQL_ENDPOINT ++ "/content/cards/a b"
        credentialsInclude := true } := by
  decide

/-- C8 (amended): for every fragment path the fetcher requests the URL
formed by the fixed base URL, the fixed query path, and the fragment
path appended verbatim (no URL-encoding), with credentials included;
the fetch result depends on the network only through that one
request. -/
theorem fetch_url_verbatim_concatenation (net altNet : Network) (path : String)
    (hagree : altNet (buildRequest path) = net (buildRequest path)) :
    buildRequest path =
      { url := AEM_AUTHOR_URL ++ GRAPHQL_ENDPOINT ++ path, credentialsInclude := true } ∧
    (buildRequest path).credentialsInclude = true ∧
    getProductDataByContentPath altNet path = getProductDataByContentPath net path := by
  refine ⟨rfl, rfl, ?_⟩
  unfold getProductDataByContentPath
  rw [hagree]

/-- Witness for C8 (amended) at a concrete path and network. -/
theorem fetch_url_verbatim_concatenation_witness :
    buildRequest "/path/a" =
      { url := AEM_AUTHOR_URL ++ GRAPHQL_ENDPOINT ++ "/path/a", credentialsInclude := true } ∧
    (buildRequest "/path/a").credentialsInclude = true ∧
    getProductDataByContentPath netErr "/path/a" = getProductDataByContentPath netErr "/path/a" :=
  fetch_url_verbatim_concatenation netErr netErr "/path/a" rfl

/-! ## C5: the renderer is total and the fallback card shows the notice -/

/-- C5: `createProductCard` (a total function in both versions, so it
returns exactly one card and never fails) renders, for a null record,
a fallback card containing the "data not available" notice and the
given name — the literal `"Product"` when the name is empty. -/
theorem createProductCard_fallback_total (name : String) :
    (V1.createProductCard name none).className = "products-card" ∧
    strContains (V1.createProductCard name none).innerHTML fallbackNotice ∧
    strContains (V1.createProductCard name none).innerHTML
      ("<h3 class=\"products-card-title\">" ++ jsOr name "Product" ++ "</h3>") ∧
    (jsOr name "Product" = if name = "" then "Product" else name) ∧
    (V2.createProductCard name none).className = "product-card product-error" ∧
    strContains (V2.createProductCard name none).innerHTML fallbackNotice ∧
    strContains (V2.createProductCard name none).innerHTML
      ("<h3>" ++ jsOr name "Product" ++ "</h3>") := by
  refine ⟨rfl, ?_, ?_, rfl, rfl, ?_, ?_⟩
  · apply strContains_of_eq _
      ("\n      <div class=\"products-card-body\">\n        " ++ V1.fallbackTitleHtml name ++
        "\n        <p class=\"products-card-error\">")
      _ ("</p>\n      </div>\n    ")
    simp only [V1.createProductCard, V1.fallbackInnerHtml, strAppend_assoc]
  · apply strContains_of_eq _
      ("\n      <div class=\"products-card-body\">\n        ")
      _
      ("\n        <p class=\"products-card-error\">" ++ fallbackNotice ++
        "</p>\n      </div>\n    ")
    simp only [V1.createProductCard, V1.fallbackInnerHtml, V1.fallbackTitleHtml,
      strAppend_assoc]
  · apply strContains_of_eq _
      ("\n      <div class=\"product-card-body\">\n        " ++ V2.fallbackTitleHtml name ++
        "\n        <p>")
      _ ("</p>\n      </div>\n    ")
    simp only [V2.createProductCard, V2.fallbackInnerHtml, strAppend_assoc]
  · apply strContains_of_eq _
      ("\n      <div class=\"product-card-body\">\n        ")
      _ ("\n        <p>" ++ fallbackNotice ++ "</p>\n      </div>\n    ")
    simp only [V2.createProductCard, V2.fallbackInnerHtml, V2.fallbackTitleHtml,
      strAppend_assoc]

/-! ## C6: the rendered title falls back record name, given name, then
the literal "Product" -/

/-- C6: for every well-formed record, the rendered title is the record's
name when non-empty, else the given product name when non-empty, else
the literal `"Product"`; both versions interpolate exactly that title
into the card's heading element. -/
theorem card_title_fallback_chain (name : String) (r : ProductRecord) :
    (recNameOf r ≠ "" → cardTitle name r = recNameOf r) ∧
    (recNameOf r = "" → name ≠ "" → cardTitle name r = name) ∧
    (recNameOf r = "" → name = "" → cardTitle name r = "Product") ∧
    strContains (V1.createProductCard name (some r)).innerHTML
      ("<h3 class=\"products-card-title\">" ++ cardTitle name r ++ "</h3>") ∧
    strContains (V2.createProductCard name (some r)).innerHTML
      ("<h3 class=\"product-title\">" ++ cardTitle name r ++ "</h3>") := by
  refine ⟨?_, ?_, ?_, ?_, ?_⟩
  · intro h
    simp [cardTitle, jsOr, h]
  · intro h hn
    simp [cardTitle, jsOr, h, hn]
  · intro h hn
    simp [cardTitle, jsOr, h, hn]
  · apply strContains_of_eq _
      ("\n    " ++ V1.imageBlock r ++ "\n    <div class=\"products-card-body\">\n      ")
      _
      ("\n      " ++ V1.descriptionBlock (plainOf r.creditCardDescription) ++ "\n      " ++
        V1.promoBlock (plainOf r.promo) ++ "\n      " ++ V1.notesBlock (plainOf r.notes) ++
        "\n    </div>\n  ")
    simp only [V1.createProductCard, V1.cardInnerHtml, V1.titleHtml, strAppend_assoc]
  · apply strContains_of_eq _
      ("\n    " ++ V2.imageBlock r ++ "\n    <div class=\"product-card-body\">\n      ")
      _
      ("\n      " ++ V2.descriptionBlock (plainOf r.creditCardDescription) ++ "\n      " ++
        V2.promoBlock (plainOf r.promo) ++ "\n      " ++ V2.notesBlock (plainOf r.notes) ++
        "\n      " ++ V2.ctaHtml ++ "\n    </div>\n  ")
    simp only [V2.createProductCard, V2.cardInnerHtml, V2.titleHtml, strAppend_assoc]

/-- A record carrying only a name. -/
def rNamed : ProductRecord := ⟨some "Premium Card", none, none, none, none⟩

/-- A record with every field missing. -/
def rBare : ProductRecord := ⟨none, none, none, none, none⟩

/-- Witness for C6 at concrete inputs: all three branches of the title
fallback chain. -/
theorem card_title_fallback_chain_witness :
    cardTitle "N" rNamed = recNameOf rNamed ∧
    cardTitle "N" rBare = "N" ∧
    cardTitle "" rBare = "Product" :=
  ⟨(card_title_fallback_chain "N" rNamed).1 (by decide),
   (card_title_fallback_chain "N" rBare).2.1 (by decide) (by decide),
   (card_title_fallback_chain "" rBare).2.2.1 (by decide) rfl⟩

/-! ## C7 (corrected): text blocks appear iff non-empty, but the
formatting decodes no HTML entity (the `>` replacement is an identity) -/

/-- A record whose description plaintext holds an encoded `>`. -/
def rGt : ProductRecord := ⟨some "X", some ⟨"a&gt;b"⟩, none, none, none⟩

/-- A record whose description plaintext holds a line break. -/
def rNl : ProductRecord := ⟨some "X", some ⟨"a\nb"⟩, none, none, none⟩

set_option maxRecDepth 4000 in
/-- C7 counterexample: the claim's "one HTML-entity unescape (encoded
`>` decoded)" does not happen — on the description `"a&gt;b"` the first
version renders the entity verbatim and never produces the decoded
`"a>b"` (the source's replacement pattern `>` is the literal `>`
character, so the replacement is an identity); and the claim's
"line-break conversion" does not happen in the second version — on the
description `"a\nb"` it renders the raw newline and never produces
`"a<br>b"`. -/
theorem text_blocks_formatting_counterexample :
    (strContains (V1.createProductCard "N" (some rGt)).innerHTML "a&gt;b" ∧
      ¬ strContains (V1.createProductCard "N" (some rGt)).innerHTML "a>b") ∧
    (strContains (V2.createProductCard "N" (some rNl)).innerHTML "a\nb" ∧
      ¬ strContains (V2.createProductCard "N" (some rNl)).innerHTML "a<br>b") := by
  decide

/-- C7 (amended): for every record, each of the description, promo and
notes blocks appears in the rendered card exactly when the
corresponding plaintext is non-empty; its text is produced by the
source's formatting — in the first version line-break conversion
followed by a replacement of the `>` character by itself (an identity:
no HTML entity is decoded) and a trim, in the second version only that
identity replacement and trim for the description, and line-splitting
with heading detection for promo and notes. -/
theorem text_blocks_presence_and_formatting (name : String) (r : ProductRecord) :
    (V1.descriptionBlock (plainOf r.creditCardDescription) = "" ↔
      plainOf r.creditCardDescription = "") ∧
    (V1.promoBlock (plainOf r.promo) = "" ↔ plainOf r.promo = "") ∧
    (V1.notesBlock (plainOf r.notes) = "" ↔ plainOf r.notes = "") ∧
    (plainOf r.creditCardDescription ≠ "" →
      strContains (V1.createProductCard name (some r)).innerHTML
        ("<div class=\"products-card-description\"><p>" ++
          V1.formatText (plainOf r.creditCardDescription) ++ "</p></div>")) ∧
    (plainOf r.promo ≠ "" →
      strContains (V1.createProductCard name (some r)).innerHTML
        ("<div class=\"products-card-promo\"><p>" ++
          V1.formatText (plainOf r.promo) ++ "</p></div>")) ∧
    (plainOf r.notes ≠ "" →
      strContains (V1.createProductCard name (some r)).innerHTML
        ("<div class=\"products-card-notes\"><p>" ++
          V1.formatText (plainOf r.notes) ++ "</p></div>")) ∧
    (V2.descriptionBlock (plainOf r.creditCardDescription) = "" ↔
      plainOf r.creditCardDescription = "") ∧
    (V2.promoBlock (plainOf r.promo) = "" ↔ plainOf r.promo = "") ∧
    (V2.notesBlock (plainOf r.notes) = "" ↔ plainOf r.notes = "") ∧
    (plainOf r.creditCardDescription ≠ "" →
      strContains (V2.createProductCard name (some r)).innerHTML
        ("<div class=\"product-description\">" ++
          V2.formatText (plainOf r.creditCardDescription) ++ "</div>")) ∧
    (plainOf r.promo ≠ "" →
      strContains (V2.createProductCard name (some r)).innerHTML
        ("<div class=\"product-promo\">" ++
          V2.formatPromoContent (plainOf r.promo) ++ "</div>")) ∧
    (plainOf r.notes ≠ "" →
      strContains (V2.createProductCard name (some r)).innerHTML
        ("<div class=\"product-notes\">" ++
          V2.formatNotesContent (plainOf r.notes) ++ "</div>")) := by
  refine ⟨?_, ?_, ?_, ?_, ?_, ?_, ?_, ?_, ?_, ?_, ?_, ?_⟩
  · by_cases hd : plainOf r.creditCardDescription = ""
    · simp [V1.descriptionBlock, hd]
    · simp only [V1.descriptionBlock, if_neg hd, hd, iff_false]
      exact concat3_ne_empty _ _ _ (by decide)
  · by_cases hd : plainOf r.promo = ""
    · simp [V1.promoBlock, hd]
    · simp only [V1.promoBlock, if_neg hd, hd, iff_false]
      exact concat3_ne_empty _ _ _ (by decide)
  · by_cases hd : plainOf r.notes = ""
    · simp [V1.notesBlock, hd]
    · simp only [V1.notesBlock, if_neg hd, hd, iff_false]
      exact concat3_ne_empty _ _ _ (by decide)
  · intro hd
    apply strContains_of_eq _
      ("\n    " ++ V1.imageBlock r ++ "\n    <div class=\"products-card-body\">\n      " ++
        V1.titleHtml name r ++ "\n      ")
      _
      ("\n      " ++ V1.promoBlock (plainOf r.promo) ++ "\n      " ++
        V1.notesBlock (plainOf r.notes) ++ "\n    </div>\n  ")
    simp only [V1.createProductCard, V1.cardInnerHtml, V1.descriptionBlock, if_neg hd,
      strAppend_assoc]
  · intro hd
    apply strContains_of_eq _
      ("\n    " ++ V1.imageBlock r ++ "\n    <div class=\"products-card-body\">\n      " ++
        V1.titleHtml name r ++ "\n      " ++
        V1.descriptionBlock (plainOf r.creditCardDescription) ++ "\n      ")
      _
      ("\n      " ++ V1.notesBlock (plainOf r.notes) ++ "\n    </div>\n  ")
    simp only [V1.createProductCard, V1.cardInnerHtml, V1.promoBlock, if_neg hd,
      strAppend_assoc]
  · intro hd
    apply strContains_of_eq _
      ("\n    " ++ V1.imageBlock r ++ "\n    <div class=\"products-card-body\">\n      " ++
        V1.titleHtml name r ++ "\n      " ++
        V1.descriptionBlock (plainOf r.creditCardDescription) ++ "\n      " ++
        V1.promoBlock (plainOf r.promo) ++ "\n      ")
      _ ("\n    </div>\n  ")
    simp only [V1.createProductCard, V1.cardInnerHtml, V1.notesBlock, if_neg hd,
      strAppend_assoc]
  · by_cases hd : plainOf r.creditCardDescription = ""
    · simp [V2.descriptionBlock, hd]
    · simp only [V2.descriptionBlock, if_neg hd, hd, iff_false]
      exact concat3_ne_empty _ _ _ (by decide)
  · by_cases hd : plainOf r.promo = ""
    · simp [V2.promoBlock, hd]
    · simp only [V2.promoBlock, if_neg hd, hd, iff_false]
      exact concat3_ne_empty _ _ _ (by decide)
  · by_cases hd : plainOf r.notes = ""
    · simp [V2.notesBlock, hd]
    · simp only [V2.notesBlock, if_neg hd, hd, iff_false]
      exact concat3_ne_empty _ _ _ (by decide)
  · intro hd
    apply strContains_of_eq _
      ("\n    " ++ V2.imageBlock r ++ "\n    <div class=\"product-card-body\">\n      " ++
        V2.titleHtml name r ++ "\n      ")
      _
      ("\n      " ++ V2.promoBlock (plainOf r.promo) ++ "\n      " ++
        V2.notesBlock (plainOf r.notes) ++ "\n      " ++ V2.ctaHtml ++ "\n    </div>\n  ")
    simp only [V2.createProductCard, V2.cardInnerHtml, V2.descriptionBlock, if_neg hd,
      strAppend_assoc]
  · intro hd
    apply strContains_of_eq _
      ("\n    " ++ V2.imageBlock r ++ "\n    <div class=\"product-card-body\">\n      " ++
        V2.titleHtml name r ++ "\n      " ++
        V2.descriptionBlock (plainOf r.creditCardDescription) ++ "\n      ")
      _
      ("\n      " ++ V2.notesBlock (plainOf r.notes) ++ "\n      " ++ V2.ctaHtml ++
        "\n    </div>\n  ")
    simp only [V2.createProductCard, V2.cardInnerHtml, V2.promoBlock, if_neg hd,
      strAppend_assoc]
  · intro hd
    apply strContains_of_eq _
      ("\n    " ++ V2.imageBlock r ++ "\n    <div class=\"product-card-body\">\n      " ++
        V2.titleHtml name r ++ "\n      " ++
        V2.descriptionBlock (plainOf r.creditCardDescription) ++ "\n      " ++
        V2.promoBlock (plainOf r.promo) ++ "\n      ")
      _ ("\n      " ++ V2.ctaHtml ++ "\n    </div>\n  ")
    simp only [V2.createProductCard, V2.cardInnerHtml, V2.notesBlock, if_neg hd,
      strAppend_assoc]

/-- A record with non-empty description, promo and notes. -/
def rFull : ProductRecord := ⟨some "X", some ⟨"D1"⟩, some ⟨"P1"⟩, some ⟨"N1"⟩, none⟩

/-- Witness for C7 (amended) at a concrete record: the description
block of the first version and the promo block of the second version
both appear. -/
theorem text_blocks_presence_and_formatting_witness :
    plainOf rFull.creditCardDescription ≠ "" ∧
    strContains (V1.createProductCard "N" (some rFull)).innerHTML
      ("<div class=\"products-card-description\"><p>" ++
        V1.formatText (plainOf rFull.creditCardDescription) ++ "</p></div>") ∧
    strContains (V2.createProductCard "N" (some rFull)).innerHTML
      ("<div class=\"product-promo\">" ++
        V2.formatPromoContent (plainOf rFull.promo) ++ "</div>") :=
  ⟨by decide,
   (text_blocks_presence_and_formatting "N" rFull).2.2.2.1 (by decide),
   (text_blocks_presence_and_formatting "N" rFull).2.2.2.2.2.2.2.2.2.2.1 (by decide)⟩

/-! ## C9 (corrected): instrumentation is copied only for cards whose
fetch did not throw -/

set_option maxRecDepth 4000 in
/-- C9 counterexample: on a network where the only fetch yields HTTP
404 the item's card is still rendered (as a fallback card), yet the
number of `moveInstrumentation` calls made for it is 0, not 1 — the
call sits in the try branch only, and the catch branch skips it. -/
theorem instrumentation_claim_counterexample :
    (V1.processItem net404 itemA).card = V1.createProductCard "Card A" none ∧
    ¬ (V1.processItem net404 itemA).instrCalls = 1 ∧
    (V2.processItem net404 itemA).card = V2.createProductCard "Card A" none ∧
    ¬ (V2.processItem net404 itemA).instrCalls = 1 := by
  decide

/-- C9 (amended): exactly one `moveInstrumentation` call is made for
each card whose fetch completed without throwing (including "no
record" fallbacks rendered from a successful fetch), and no call is
made for a card rendered after its fetch threw. -/
theorem instrumentation_on_successful_fetch_only (net : Network) (item : ProductItem) :
    (exceptFailed (getProductDataByContentPath net item.fragmentPath) = false →
      (V1.processItem net item).instrCalls = 1 ∧
      (V2.processItem net item).instrCalls = 1) ∧
    (exceptFailed (getProductDataByContentPath net item.fragmentPath) = true →
      (V1.processItem net item).instrCalls = 0 ∧
      (V2.processItem net item).instrCalls = 0) := by
  cases h : getProductDataByContentPath net item.fragmentPath with
  | ok v =>
    constructor
    · intro _
      constructor <;> simp [V1.processItem, V2.processItem, h]
    · intro hfail
      simp [exceptFailed] at hfail
  | error e =>
    constructor
    · intro hok
      simp [exceptFailed] at hok
    · intro _
      constructor <;> simp [V1.processItem, V2.processItem, h]

/-- Witness for C9 (amended): one instrumentation call on a successful
fetch, none on a rejected fetch. -/
theorem instrumentation_on_successful_fetch_only_witness :
    ((V1.processItem net200Empty itemA).instrCalls = 1 ∧
      (V2.processItem net200Empty itemA).instrCalls = 1) ∧
    ((V1.processItem netErr itemA).instrCalls = 0 ∧
      (V2.processItem netErr itemA).instrCalls = 0) :=
  ⟨(instrumentation_on_successful_fetch_only net200Empty itemA).1 (by decide),
   (instrumentation_on_successful_fetch_only netErr itemA).2 (by decide)⟩

/-! ## C1: a single failed fetch yields one fallback card, never the
error page -/

theorem exceptFailed_error {e : Except FetchError (Option ProductRecord)}
    (h : exceptFailed e = true) : ∃ err, e = Except.error err := by
  cases e with
  | ok v => simp [exceptFailed] at h
  | error err => exact ⟨err, rfl⟩

theorem getElem?_ne_nil {l : List ProductItem} {j : Nat} {item : ProductItem}
    (hj : l[j]? = some item) : l.length ≠ 0 := by
  intro h0
  rw [List.length_eq_zero] at h0
  rw [h0] at hj
  simp at hj

/-- C1: for every network and block, if the fetch of one parsed item
fails, `decorate` still renders the full list of cards — the failed
item's slot holds the fallback card, every other slot holds the card
its own fetch-and-render produced — and the block is never replaced by
the error page.  (Both versions; the `Promise.all` result list is
indexed by item position, so this is independent of settle order.) -/
theorem decorate_isolates_single_fetch_failure (net : Network)
    (rows : List (List String)) (j : Nat) (item : ProductItem)
    (hj : (parseProductItems rows)[j]? = some item)
    (hfail : exceptFailed (getProductDataByContentPath net item.fragmentPath) = true) :
    (∃ cards,
      V1.decorate net rows = V1.BlockResult.rendered cards ∧
      V1.decorate net rows ≠ V1.BlockResult.errorParagraph ∧
      cards.length = (parseProductItems rows).length ∧
      cards[j]? = some (V1.createProductCard item.productName none) ∧
      ∀ (i : Nat) (it : ProductItem), (parseProductItems rows)[i]? = some it →
        cards[i]? = some (V1.processItem net it).card) ∧
    (∃ cards,
      V2.decorate net rows = V2.BlockResult.rendered V2.titleSectionHtml cards ∧
      V2.decorate net rows ≠ V2.BlockResult.errorParagraph ∧
      cards.length = (parseProductItems rows).length ∧
      cards[j]? = some (V2.createProductCard item.productName none) ∧
      ∀ (i : Nat) (it : ProductItem), (parseProductItems rows)[i]? = some it →
        cards[i]? = some (V2.processItem net it).card) := by
  have hlen : (parseProductItems rows).length ≠ 0 := getElem?_ne_nil hj
  obtain ⟨err, herr⟩ := exceptFailed_error hfail
  constructor
  · have hdec : V1.decorate net rows =
        V1.BlockResult.rendered
          ((parseProductItems rows).map (fun it => (V1.processItem net it).card)) := by
      unfold V1.decorate
      rw [if_neg hlen, List.map_map]
      rfl
    refine ⟨(parseProductItems rows).map (fun it => (V1.processItem net it).card),
      hdec, ?_, by simp, ?_, ?_⟩
    · rw [hdec]
      intro hcontra
      cases hcontra
    · simp only [List.getElem?_map, hj, Option.map_some']
      simp [V1.processItem, herr]
    · intro i it hit
      simp only [List.getElem?_map, hit, Option.map_some']
  · have hdec : V2.decorate net rows =
        V2.BlockResult.rendered V2.titleSectionHtml
          ((parseProductItems rows).map (fun it => (V2.processItem net it).card)) := by
      unfold V2.decorate
      rw [if_neg hlen, List.map_map]
      rfl
    refine ⟨(parseProductItems rows).map (fun it => (V2.processItem net it).card),
      hdec, ?_, by simp, ?_, ?_⟩
    · rw [hdec]
      intro hcontra
      cases hcontra
    · simp only [List.getElem?_map, hj, Option.map_some']
      simp [V2.processItem, herr]
    · intro i it hit
      simp only [List.getElem?_map, hit, Option.map_some']

/-- Witness for C1: a one-row block on a network that rejects the only
fetch. -/
theorem decorate_isolates_single_fetch_failure_witness :
    (∃ cards,
      V1.decorate netErr rowsA = V1.BlockResult.rendered cards ∧
      V1.decorate netErr rowsA ≠ V1.BlockResult.errorParagraph ∧
      cards.length = (parseProductItems rowsA).length ∧
      cards[0]? = some (V1.createProductCard itemA.productName none) ∧
      ∀ (i : Nat) (it : ProductItem), (parseProductItems rowsA)[i]? = some it →
        cards[i]? = some (V1.processItem netErr it).card) ∧
    (∃ cards,
      V2.decorate netErr rowsA = V2.BlockResult.rendered V2.titleSectionHtml cards ∧
      V2.decorate netErr rowsA ≠ V2.BlockResult.errorParagraph ∧
      cards.length = (parseProductItems rowsA).length ∧
      cards[0]? = some (V2.createProductCard itemA.productName none) ∧
      ∀ (i : Nat) (it : ProductItem), (parseProductItems rowsA)[i]? = some it →
        cards[i]? = some (V2.processItem netErr it).card) :=
  decorate_isolates_single_fetch_failure netErr rowsA 0 itemA (by decide) (by decide)

/-! ## C10: one card per parsed item, in source order, none dropped -/

/-- C10: for every network and block with at least one parsed item, the
final rendered list is exactly the parsed items mapped to their cards —
one card per item, in parse order, none dropped.  The embedding of
`Promise.all` is a pure map indexed by item position, which is the
reason the result is independent of the order in which fetches settle. -/
theorem decorate_renders_all_items_in_order (net : Network)
    (rows : List (List String)) (hne : (parseProductItems rows).length ≠ 0) :
    V1.decorate net rows =
      V1.BlockResult.rendered
        ((parseProductItems rows).map (fun it => (V1.processItem net it).card)) ∧
    ((parseProductItems rows).map (fun it => (V1.processItem net it).card)).length =
      (parseProductItems rows).length ∧
    V2.decorate net rows =
      V2.BlockResult.rendered V2.titleSectionHtml
        ((parseProductItems rows).map (fun it => (V2.processItem net it).card)) ∧
    ((parseProductItems rows).map (fun it => (V2.processItem net it).card)).length =
      (parseProductItems rows).length := by
  refine ⟨?_, by simp, ?_, by simp⟩
  · unfold V1.decorate
    rw [if_neg hne, List.map_map]
    rfl
  · unfold V2.decorate
    rw [if_neg hne, List.map_map]
    rfl

/-- Witness for C10: a block with one qualifying and two non-qualifying
rows renders exactly one card. -/
theorem decorate_renders_all_items_in_order_witness :
    V1.decorate net200Empty rowsMixed =
      V1.BlockResult.rendered
        ((parseProductItems rowsMixed).map
          (fun it => (V1.processItem net200Empty it).card)) ∧
    ((parseProductItems rowsMixed).map
        (fun it => (V1.processItem net200Empty it).card)).length =
      (parseProductItems rowsMixed).length ∧
    V2.decorate net200Empty rowsMixed =
      V2.BlockResult.rendered V2.titleSectionHtml
        ((parseProductItems rowsMixed).map
          (fun it => (V2.processItem net200Empty it).card)) ∧
    ((parseProductItems rowsMixed).map
        (fun it => (V2.processItem net200Empty it).card)).length =
      (parseProductItems rowsMixed).length :=
  decorate_renders_all_items_in_order net200Empty rowsMixed (by decide)
